import Mathlib

/-!
Verification of the ceremony verification engine of the RENStack FIDO2
authenticator backend, shallowly embedded from `src/backend/routes/auth.js`
and the Sequelize models.  Byte buffers are `List Nat` (each entry < 256),
wire strings are `String`.
-/

namespace RenStack

/-! ## Codec — `bufferToBase64url` / `base64URLToBuffer`
(`src/backend/routes/auth.js` lines 18-31). -/

/-- The standard base64 alphabet used by Node's `Buffer.toString('base64')`. -/
def base64Alphabet : List Char :=
  "ABCDEFGHIJKLMNOPQRSTUVWXYZabcdefghijklmnopqrstuvwxyz0123456789+/".data

/-- Character for a sextet value (0..63). -/
def base64Char (i : Nat) : Char := base64Alphabet.getD i 'A'

/-- Node `Buffer.from(bytes).toString('base64')`: three-byte groups become four
alphabet characters; a final group of one or two bytes is completed with `'='`
padding. -/
def toBase64Chars : List Nat → List Char
  | b0 :: b1 :: b2 :: rest =>
      base64Char (b0 / 4) :: base64Char (b0 % 4 * 16 + b1 / 16) ::
      base64Char (b1 % 16 * 4 + b2 / 64) :: base64Char (b2 % 64) :: toBase64Chars rest
  | [b0, b1] =>
      [base64Char (b0 / 4), base64Char (b0 % 4 * 16 + b1 / 16), base64Char (b1 % 16 * 4), '=']
  | [b0] => [base64Char (b0 / 4), base64Char (b0 % 4 * 16), '=', '=']
  | [] => []

/-- The replace step of `bufferToBase64url`: swap plus for dash and slash for
underscore. -/
def urlReplace (c : Char) : Char :=
  if c = '+' then '-' else if c = '/' then '_' else c

/-- The replace step of `base64URLToBuffer`: swap dash back to plus and
underscore back to slash. -/
def urlUnreplace (c : Char) : Char :=
  if c = '-' then '+' else if c = '_' then '/' else c

/-- The trailing-padding strip of `bufferToBase64url`: drop the trailing run
of `'='`. -/
def dropTrailingEq (l : List Char) : List Char :=
  (l.reverse.dropWhile (· == '=')).reverse

/-- `bufferToBase64url` (auth.js lines 19-23): standard base64, `'+'`/`'/'`
swapped for `'-'`/`'_'`, trailing padding stripped. -/
def bufferToBase64url (b : List Nat) : String :=
  String.mk (dropTrailingEq ((toBase64Chars b).map urlReplace))

/-- Sextet value of a character: its index in the standard alphabet, `none` for
`'='` and for every character outside the alphabet. -/
def sextetOfChar (c : Char) : Option Nat :=
  base64Alphabet.findIdx? (· == c)

/-- Groups of four sextets back to three bytes; a trailing group of three or
two sextets yields two bytes or one byte, a single dangling sextet is dropped.
This is how Node's `Buffer.from(-, 'base64')` reassembles bytes once padding
and invalid characters are ignored (Node's base64 decoder does not throw; it
skips characters outside the alphabet). -/
def fromSextets : List Nat → List Nat
  | s0 :: s1 :: s2 :: s3 :: rest =>
      (s0 * 4 + s1 / 16) :: (s1 % 16 * 16 + s2 / 4) :: (s2 % 4 * 64 + s3) :: fromSextets rest
  | [s0, s1, s2] => [s0 * 4 + s1 / 16, s1 % 16 * 16 + s2 / 4]
  | [s0, s1] => [s0 * 4 + s1 / 16]
  | [_] => []
  | [] => []

/-- `base64URLToBuffer` (auth.js lines 26-31): undo the url-alphabet
replacement, re-pad to a multiple of four symbols, then Node base64 decode. -/
def base64URLToBuffer (s : String) : List Nat :=
  let replaced := s.data.map urlUnreplace
  let padLen := (4 - replaced.length % 4) % 4
  let padded := replaced ++ List.replicate padLen '='
  fromSextets (padded.filterMap sextetOfChar)

/-- Decoding a character that went through encode's replacement and decode's
un-replacement. -/
def decodeChar (c : Char) : Option Nat :=
  sextetOfChar (urlUnreplace (urlReplace c))

theorem decodeChar_base64Char : ∀ i : Nat, i < 64 → decodeChar (base64Char i) = some i := by
  decide

theorem decodeChar_padChar : decodeChar '=' = none := by decide

theorem sextetOfChar_padChar : sextetOfChar '=' = none := by decide

theorem sextetOfChar_unreplace_padChar : sextetOfChar (urlUnreplace '=') = none := by decide

theorem filterMap_dropWhileEq (f : Char → Option Nat) (hf : f '=' = none) :
    ∀ l : List Char, List.filterMap f (l.dropWhile (· == '=')) = List.filterMap f l
  | [] => rfl
  | c :: l => by
    by_cases hc : c = '='
    · subst hc
      simp only [List.dropWhile_cons, beq_self_eq_true, if_true,
        filterMap_dropWhileEq f hf l, List.filterMap_cons, hf]
    · simp [List.dropWhile_cons, hc]

theorem filterMap_dropTrailingEq (f : Char → Option Nat) (hf : f '=' = none) (l : List Char) :
    List.filterMap f (dropTrailingEq l) = List.filterMap f l := by
  unfold dropTrailingEq
  rw [List.filterMap_reverse, filterMap_dropWhileEq f hf, List.filterMap_reverse,
    List.reverse_reverse]

theorem base64URLToBuffer_encode_normal (b : List Nat) :
    base64URLToBuffer (bufferToBase64url b) =
      fromSextets (List.filterMap decodeChar (toBase64Chars b)) := by
  unfold base64URLToBuffer bufferToBase64url
  simp only [String.data]
  rw [List.filterMap_append, List.filterMap_replicate_of_none sextetOfChar_padChar,
    List.append_nil, List.filterMap_map,
    filterMap_dropTrailingEq (sextetOfChar ∘ urlUnreplace)
      (by simpa [Function.comp_def] using sextetOfChar_unreplace_padChar),
    List.filterMap_map]
  rfl

theorem fromSextets_filterMap_toBase64Chars :
    ∀ b : List Nat, (∀ x ∈ b, x < 256) →
      fromSextets (List.filterMap decodeChar (toBase64Chars b)) = b
  | [], _ => rfl
  | [b0], h => by
    have h0 : b0 < 256 := h b0 (by simp)
    have e1 := decodeChar_base64Char (b0 / 4) (by omega)
    have e2 := decodeChar_base64Char (b0 % 4 * 16) (by omega)
    simp [toBase64Chars, List.filterMap_cons, e1, e2, decodeChar_padChar, fromSextets]
    omega
  | [b0, b1], h => by
    have h0 : b0 < 256 := h b0 (by simp)
    have h1 : b1 < 256 := h b1 (by simp)
    have e1 := decodeChar_base64Char (b0 / 4) (by omega)
    have e2 := decodeChar_base64Char (b0 % 4 * 16 + b1 / 16) (by omega)
    have e3 := decodeChar_base64Char (b1 % 16 * 4) (by omega)
    simp [toBase64Chars, List.filterMap_cons, e1, e2, e3, decodeChar_padChar, fromSextets]
    omega
  | b0 :: b1 :: b2 :: rest, h => by
    have h0 : b0 < 256 := h b0 (by simp)
    have h1 : b1 < 256 := h b1 (by simp)
    have h2 : b2 < 256 := h b2 (by simp)
    have ih := fromSextets_filterMap_toBase64Chars rest (fun x hx => h x (by simp [hx]))
    have e1 := decodeChar_base64Char (b0 / 4) (by omega)
    have e2 := decodeChar_base64Char (b0 % 4 * 16 + b1 / 16) (by omega)
    have e3 := decodeChar_base64Char (b1 % 16 * 4 + b2 / 64) (by omega)
    have e4 := decodeChar_base64Char (b2 % 64) (by omega)
    simp [toBase64Chars, List.filterMap_cons, e1, e2, e3, e4, fromSextets, ih]
    omega

/-- C7: for every byte buffer, decoding the wire encoding returns the buffer
exactly — `base64URLToBuffer (bufferToBase64url b) = b` — where the encoder
produces unpadded base64url text and the decoder re-pads to a multiple of four
symbols before standard base64 decoding. -/
theorem decode_encode_roundtrip (b : List Nat) (hb : ∀ x ∈ b, x < 256) :
    base64URLToBuffer (bufferToBase64url b) = b := by
  rw [base64URLToBuffer_encode_normal]
  exact fromSextets_filterMap_toBase64Chars b hb

theorem decode_encode_roundtrip_witness :
    base64URLToBuffer (bufferToBase64url [72, 101, 108, 108, 111, 254, 0, 17]) =
      [72, 101, 108, 108, 111, 254, 0, 17] :=
  decode_encode_roundtrip [72, 101, 108, 108, 111, 254, 0, 17] (by decide)

/-- C8 counterexample: on input containing characters outside the base64url
alphabet (here `'*'`), the decoder does not fail: it returns a byte buffer,
silently ignoring the invalid characters.  No `MalformedEncoding` failure path
exists in `base64URLToBuffer`. -/
theorem decode_invalid_chars_cx :
    base64URLToBuffer (String.mk ['A', '*', 'A', '*']) = [0] := by decide

theorem filterMap_filter_isSome (g : Char → Option Nat) :
    ∀ l : List Char,
      List.filterMap g (l.filter (fun c => (g c).isSome)) = List.filterMap g l
  | [] => rfl
  | c :: l => by
    cases hg : g c <;>
      simp [List.filter_cons, hg, List.filterMap_cons, filterMap_filter_isSome g l]

/-- C8 amended: the decoder never fails.  Characters outside the base64url
alphabet are ignored, not rejected: stripping them from the input does not
change the decoded buffer.  (No expected-length validation exists either; the
decoder returns buffers of whatever length the valid symbols produce.) -/
theorem decode_ignores_invalid_chars (s : String) :
    base64URLToBuffer
        (String.mk (s.data.filter (fun c => (sextetOfChar (urlUnreplace c)).isSome)))
      = base64URLToBuffer s := by
  unfold base64URLToBuffer
  simp only [String.data]
  rw [List.filterMap_append, List.filterMap_replicate_of_none sextetOfChar_padChar,
    List.filterMap_append, List.filterMap_replicate_of_none sextetOfChar_padChar,
    List.append_nil, List.append_nil, List.filterMap_map, List.filterMap_map]
  have : (fun c => (sextetOfChar (urlUnreplace c)).isSome)
      = fun c => ((sextetOfChar ∘ urlUnreplace) c).isSome := rfl
  rw [this, filterMap_filter_isSome (sextetOfChar ∘ urlUnreplace)]

/-! ## Data model — Sequelize `User` and `Credential` rows and the
express-session state touched by the auth routes.  The `Credential` model
(`models/Credential.js`) declares `credentialId` as `STRING(512), allowNull
false` with NO uniqueness constraint, `publicKey` as `TEXT`, `counter` as
`INTEGER` defaulting to 0, and a `userId` foreign key to `User`. -/

structure User where
  id : Nat
  username : String
  displayName : String
  deriving Repr, DecidableEq

structure Credential where
  id : Nat
  userId : Nat
  credentialId : String
  publicKey : String
  counter : Nat
  deriving Repr, DecidableEq

structure DB where
  users : List User
  creds : List Credential
  deriving Repr, DecidableEq

/-- The express-session fields the auth routes read and write. -/
structure Session where
  challenge : Option String
  username : Option String
  displayName : Option String
  authenticated : Bool
  deriving Repr, DecidableEq

def emptyDB : DB := ⟨[], []⟩

def emptySession : Session := ⟨none, none, none, false⟩

/-- JavaScript truthiness of an optional string field: absent, null and the
empty string are falsy. -/
def truthy : Option String → Bool
  | none => false
  | some s => !s.isEmpty

/-- JavaScript `a || b` on a possibly-absent string. -/
def jsOr (a : Option String) (b : String) : String :=
  match a with
  | none => b
  | some s => if s.isEmpty then b else s

/-- `User.findOne (where username)`: first user row with the given
username. -/
def findUserByUsername (db : DB) (uname : String) : Option User :=
  db.users.find? (fun u => u.username == uname)

/-- The `user.Credentials` list of the Sequelize `include`: the credential
rows owned by the user, in insertion (primary-key) order. -/
def credentialsOf (db : DB) (userId : Nat) : List Credential :=
  db.creds.filter (fun c => c.userId == userId)

/-- `User.create`: new row with the next identifier. -/
def createUser (db : DB) (uname dname : String) : User × DB :=
  let u : User := ⟨db.users.length + 1, uname, dname⟩
  (u, { db with users := db.users ++ [u] })

/-- `Credential.create`: appends a row; no duplicate-identifier check is
performed anywhere (the model declares no unique constraint). -/
def createCredential (db : DB) (userId : Nat) (cid pk : String) (counter : Nat) : DB :=
  { db with
    creds := db.creds ++ [⟨db.creds.length + 1, userId, cid, pk, counter⟩] }

/-- `credential.update (counter n)`: set the counter of the row with the
given primary key. -/
def updateCounterRow (db : DB) (rowId n : Nat) : DB :=
  { db with
    creds := db.creds.map (fun c => if c.id == rowId then { c with counter := n } else c) }

/-! ## The fido2-lib boundary.  The routes delegate cryptographic checking to
the external `fido2-lib` dependency (not part of this repository's sources);
its verdict is abstracted below. -/

/-- Binary fields of an assertion response, wire-encoded. -/
structure AssertionResponse where
  authenticatorData : String
  clientDataJSON : String
  signature : String
  deriving Repr, DecidableEq

/-- The request body of `POST /login/response`:
`const (id, rawId, type, response) = req.body`. -/
structure AssertionRequest where
  id : String
  rawId : String
  type : String
  response : AssertionResponse
  deriving Repr, DecidableEq

/-- Modelled from the spec: the external fido2-lib `assertionResult` call
(dependency code, not under `src/`).  `verify` abstracts the challenge /
origin / rp-id / type / signature validation of the assertion response against
the stored public key and the expected (session) challenge; `counterOf`
abstracts the signature counter parsed from the authenticator data.  The
route passes only the stored public key, the session challenge and the
response's binary fields to the library; the counter rule itself is modelled
concretely by `counterCheckOk`. -/
structure Fido2Model where
  verify : String → String → AssertionResponse → Bool
  counterOf : AssertionResponse → Nat

/-- Modelled from the spec: the signature-counter validation inside the
external fido2-lib `assertionResult` (dependency code, not under `src/`): the
counter is treated as supported unless both the presented and the stored
value are zero, and a supported counter must strictly exceed the stored
value. -/
def counterCheckOk (presented stored : Nat) : Bool :=
  (presented == 0 && stored == 0) || decide (stored < presented)

/-- Externally visible outcome of `POST /login/response`: the 200 body on
success, or the 500 body `(error, message)` built from the caught error. -/
inductive LoginResult where
  | ok (username displayName : String)
  | err (error message : String)
  deriving Repr, DecidableEq

def LoginResult.isOk : LoginResult → Bool
  | .ok _ _ => true
  | .err _ _ => false

/-- `POST /login/response` (auth.js lines 415-499).  Faithful control flow:
challenge and username guards read the session only; the credential used is
`user.Credentials[0]` — the presented `id` and `rawId` are never looked up (they
are forwarded to fido2-lib, which without an `allowCredentials` expectation
does not gate on them); on success the first credential's counter row is
updated to the library-reported value, the session challenge is cleared and
the session is marked authenticated; every caught error is surfaced as a 500
whose `message` field is the internal `err.message` (the fido2-lib rejection
message is abstracted to one modelled string). -/
def loginResponse (m : Fido2Model) (db : DB) (sess : Session) (req : AssertionRequest) :
    LoginResult × DB × Session :=
  if !(truthy sess.challenge) then
    (.err ("Authentication verification failed") ("No challenge found in session"), db, sess)
  else if !(truthy sess.username) then
    (.err ("Authentication verification failed") ("No username found in session"), db, sess)
  else
    let chal := sess.challenge.getD ""
    let uname := sess.username.getD ""
    match findUserByUsername db uname with
    | none =>
        (.err ("Authentication verification failed") ("No credentials found for user"), db, sess)
    | some user =>
      match credentialsOf db user.id with
      | [] =>
          (.err ("Authentication verification failed") ("No credentials found for user"), db, sess)
      | credential :: _ =>
        if m.verify credential.publicKey chal req.response &&
            counterCheckOk (m.counterOf req.response) credential.counter then
          (.ok user.username user.displayName,
           updateCounterRow db credential.id (m.counterOf req.response),
           { sess with challenge := none, authenticated := true })
        else
          (.err ("Authentication verification failed") ("assertion verification failed"), db, sess)

/-- `POST /store-challenge` (auth.js lines 131-146): stores the
client-supplied body field `challenge` directly into the session. -/
inductive StoreResult where
  | ok
  | badRequest (error : String)
  deriving Repr, DecidableEq

def storeChallenge (sess : Session) (challenge : Option String) : StoreResult × Session :=
  if !(truthy challenge) then (.badRequest ("Missing challenge"), sess)
  else (.ok, { sess with challenge := challenge })

/-! ## Registration handlers. -/

/-- Binary fields of an attestation response, wire-encoded. -/
structure AttestationResponse where
  attestationObject : String
  clientDataJSON : String
  deriving Repr, DecidableEq

/-- The request body of `POST /register/response` (first revision):
`const (rawId, type, response) = req.body`. -/
structure AttestationRequest where
  rawId : String
  type : String
  response : AttestationResponse
  deriving Repr, DecidableEq

/-- Modelled from the spec: the external fido2-lib `attestationResult` call
(dependency code, not under `src/`): an abstract verdict over the expected
(session) challenge and the response, plus the extracted public key
(`credentialPublicKeyPem`) and initial counter. -/
structure AttestationModel where
  verify : String → AttestationResponse → Bool
  publicKeyOf : AttestationResponse → String
  counterOf : AttestationResponse → Nat

/-- Externally visible outcome of a registration completion. -/
inductive RegResult where
  | ok (username displayName : String)
  | err (error message : String)
  deriving Repr, DecidableEq

def RegResult.isOk : RegResult → Bool
  | .ok _ _ => true
  | .err _ _ => false

/-- `POST /register/response` (auth.js lines 149-235, first revision).
Requires a session challenge; on a fido2-lib rejection the thrown error is
caught and returned as a 500 with the session untouched (the library message
is abstracted to one modelled string); an absent session username makes the
`User.findOne` call throw (Sequelize rejects an undefined `where` value); on
success the user is created if absent, a credential row is persisted with the
extracted key and counter, the challenge is cleared and the session marked
authenticated. -/
def registerResponse (am : AttestationModel) (db : DB) (sess : Session)
    (req : AttestationRequest) : RegResult × DB × Session :=
  if !(truthy sess.challenge) then
    (.err ("Registration failed") ("No challenge found in session"), db, sess)
  else if !(am.verify (sess.challenge.getD "") req.response) then
    (.err ("Registration failed") ("attestation verification failed"), db, sess)
  else
    match sess.username with
    | none =>
        (.err ("Registration failed") ("WHERE parameter username has invalid undefined value"),
         db, sess)
    | some username =>
      let found := findUserByUsername db username
      let user := found.getD (createUser db username (sess.displayName.getD "")).1
      let db1 := if found.isSome then db else (createUser db username (sess.displayName.getD "")).2
      let db2 := createCredential db1 user.id req.rawId (am.publicKeyOf req.response)
        (am.counterOf req.response)
      (.ok user.username user.displayName, db2,
       { sess with challenge := none, authenticated := true })

/-- The request body of `POST /register-direct`.  The source resolves the
credential identifier through a fallback chain of client body fields
(`rawId`, `credential.rawId`, `credential.id`, `id`) — all client-supplied;
the chain is collapsed into the single resolved field `rawId` here. -/
structure RegisterDirectRequest where
  username : Option String
  displayName : Option String
  rawId : Option String
  deriving Repr, DecidableEq

/-- Externally visible outcome of `POST /register-direct`. -/
inductive RegisterDirectResult where
  | ok (userId : Nat) (username displayName : String)
  | badRequest (error : String)
  | serverError (error : String)
  deriving Repr, DecidableEq

/-- `POST /register-direct` (auth.js lines 238-316, first revision).  No
attestation object is read and no cryptographic verification of any kind is
performed: given a username and a credential identifier it persists a
credential row whose public key is the literal sentinel `"PLACEHOLDER_KEY"`
with counter 0, and marks the session authenticated. -/
def registerDirect (db : DB) (sess : Session) (body : RegisterDirectRequest) :
    RegisterDirectResult × DB × Session :=
  if !(truthy body.username) then (.badRequest ("Username required"), db, sess)
  else if !(truthy body.rawId) then (.badRequest ("No credential ID provided"), db, sess)
  else
    let username := body.username.getD ""
    let credentialId := body.rawId.getD ""
    let found := findUserByUsername db username
    let user := found.getD (createUser db username (jsOr body.displayName username)).1
    let db1 := if found.isSome then db
      else (createUser db username (jsOr body.displayName username)).2
    let db2 := createCredential db1 user.id credentialId ("PLACEHOLDER_KEY") 0
    (.ok user.id user.username user.displayName, db2,
     { sess with authenticated := true, username := some username, challenge := none })

/-- `POST /register-direct` (auth.js lines 1214-1298, second revision).  Same
placeholder-key persistence, but the bound identity falls back to the
client-supplied body username when the session holds none
(`req.session?.username || req.body.username`), and an absent credential
identifier only fails at the database (`allowNull: false`), surfacing as a
500. -/
def registerDirectV2 (db : DB) (sess : Session) (body : RegisterDirectRequest) :
    RegisterDirectResult × DB × Session :=
  let username? : Option String := if truthy sess.username then sess.username else body.username
  if !(truthy username?) then (.badRequest ("Username required"), db, sess)
  else
    let username := username?.getD ""
    let displayName := jsOr sess.displayName (jsOr body.displayName username)
    match body.rawId with
    | none => (.serverError ("Registration failed"), db, sess)
    | some rid =>
      let found := findUserByUsername db username
      let user := found.getD (createUser db username displayName).1
      let db1 := if found.isSome then db else (createUser db username displayName).2
      let db2 := createCredential db1 user.id rid ("PLACEHOLDER_KEY") 0
      (.ok user.id user.username user.displayName, db2,
       { sess with authenticated := true, username := some username, challenge := none })

/-! ## Concrete fixtures used by witnesses and counterexamples. -/

def aliceUser : User := ⟨1, "alice", "Alice"⟩

def aliceCred : Credential := ⟨1, 1, "credA", "pkA", 0⟩

def bobUser : User := ⟨2, "bob", "Bob"⟩

def bobCred : Credential := ⟨2, 2, "credB", "pkB", 0⟩

def dbAlice : DB := ⟨[aliceUser], [aliceCred]⟩

def dbAB : DB := ⟨[aliceUser, bobUser], [aliceCred, bobCred]⟩

def sessAlice : Session := ⟨some ("chal"), some ("alice"), none, false⟩

def sessBob : Session := ⟨some ("chal"), some ("bob"), none, false⟩

def sessNoChal : Session := ⟨none, some ("alice"), none, false⟩

def sessNoUser : Session := ⟨some ("chal"), none, none, false⟩

def reqA : AssertionRequest := ⟨"credA", "credA", "public-key", ⟨"ad", "cdj", "sig"⟩⟩

def reqOtherId : AssertionRequest := ⟨"other", "other", "public-key", ⟨"ad", "cdj", "sig"⟩⟩

def mAccept : Fido2Model := ⟨fun _ _ _ => true, fun _ => 5⟩

def mReject : Fido2Model := ⟨fun _ _ _ => false, fun _ => 5⟩

def mZero : Fido2Model := ⟨fun _ _ _ => true, fun _ => 0⟩

def mKeyB : Fido2Model := ⟨fun pk _ _ => pk == "pkB", fun _ => 1⟩

def amAccept : AttestationModel := ⟨fun _ _ => true, fun _ => "pem-key", fun _ => 0⟩

def attReq : AttestationRequest := ⟨"credA", "public-key", ⟨"ao", "cdj"⟩⟩

/-! ## Outcome characterization of the login completion handler. -/

theorem loginResponse_spec (m : Fido2Model) (db : DB) (sess : Session) (req : AssertionRequest) :
    (∃ msg, loginResponse m db sess req
        = (.err ("Authentication verification failed") msg, db, sess)) ∨
    (∃ user credential rest,
      truthy sess.challenge = true ∧ truthy sess.username = true ∧
      findUserByUsername db (sess.username.getD "") = some user ∧
      credentialsOf db user.id = credential :: rest ∧
      m.verify credential.publicKey (sess.challenge.getD "") req.response = true ∧
      counterCheckOk (m.counterOf req.response) credential.counter = true ∧
      loginResponse m db sess req =
        (.ok user.username user.displayName,
         updateCounterRow db credential.id (m.counterOf req.response),
         { sess with challenge := none, authenticated := true })) := by
  by_cases h1 : truthy sess.challenge = true
  · by_cases h2 : truthy sess.username = true
    · cases hu : findUserByUsername db (sess.username.getD "") with
      | none =>
          exact .inl ⟨("No credentials found for user"), by unfold loginResponse; simp [h1, h2, hu]⟩
      | some user =>
        cases hc : credentialsOf db user.id with
        | nil =>
            exact .inl ⟨("No credentials found for user"),
              by unfold loginResponse; simp [h1, h2, hu, hc]⟩
        | cons credential rest =>
          by_cases hv : (m.verify credential.publicKey (sess.challenge.getD "") req.response &&
              counterCheckOk (m.counterOf req.response) credential.counter) = true
          · refine .inr ⟨user, credential, rest, h1, h2, rfl, hc, ?_, ?_, ?_⟩
            · exact (Bool.and_eq_true _ _ ▸ hv).1
            · exact (Bool.and_eq_true _ _ ▸ hv).2
            · unfold loginResponse; simp [h1, h2, hu, hc, hv]
          · exact .inl ⟨("assertion verification failed"),
              by unfold loginResponse; simp [h1, h2, hu, hc, hv]⟩
    · exact .inl ⟨("No username found in session"),
        by unfold loginResponse; simp [h1, Bool.eq_false_iff.2 h2]⟩
  · exact .inl ⟨("No challenge found in session"),
      by unfold loginResponse; simp [Bool.eq_false_iff.2 h1]⟩

theorem loginResponse_noChallenge (m : Fido2Model) (db : DB) (sess : Session)
    (req : AssertionRequest) (h : truthy sess.challenge = false) :
    loginResponse m db sess req
      = (.err ("Authentication verification failed") ("No challenge found in session"),
         db, sess) := by
  unfold loginResponse; simp [h]

/-- The assertion request enters the verification only through its binary
`response` fields: the presented `id` / `rawId` / `type` never influence the
outcome. -/
theorem loginResponse_depends_only_on_response (m : Fido2Model) (db : DB) (sess : Session)
    (req req' : AssertionRequest) (h : req.response = req'.response) :
    loginResponse m db sess req = loginResponse m db sess req' := by
  unfold loginResponse; rw [h]

theorem truthy_some_of_ne (s : String) (h : s ≠ "") : truthy (some s) = true := by
  simp only [truthy, Bool.not_eq_true']
  exact Bool.eq_false_iff.2 fun habs => h ((String.isEmpty_iff s).1 habs)

theorem registerResponse_sess (am : AttestationModel) (db : DB) (sess : Session)
    (rreq : AttestationRequest) :
    ((registerResponse am db sess rreq).1.isOk = true →
      (registerResponse am db sess rreq).2.2
        = { sess with challenge := none, authenticated := true }) ∧
    ((registerResponse am db sess rreq).1.isOk = false →
      (registerResponse am db sess rreq).2.2 = sess) := by
  unfold registerResponse
  cases h1 : truthy sess.challenge
  · simp [h1, RegResult.isOk]
  · cases h2 : am.verify (sess.challenge.getD "") rreq.response
    · simp [h1, h2, RegResult.isOk]
    · cases hsu : sess.username with
      | none => simp [h1, h2, RegResult.isOk]
      | some username => simp [h1, h2, RegResult.isOk]

/-! ## Claim theorems. -/

/-- C1 counterexample: a failed verification attempt does not invalidate the
pending challenge.  With a rejecting verifier the login completion fails, the
session still holds the issued challenge, and a subsequent attempt on the
resulting state is processed again (it fails on verification, not with the
no-pending-challenge error). -/
theorem failed_attempt_keeps_challenge_cx :
    ((loginResponse mReject dbAlice sessAlice reqA).2.2.challenge = some ("chal")) ∧
    ((loginResponse mReject (loginResponse mReject dbAlice sessAlice reqA).2.1
        (loginResponse mReject dbAlice sessAlice reqA).2.2 reqA).1
      = .err ("Authentication verification failed") ("assertion verification failed")) := by
  decide

/-- C1 amended: a verification attempt invalidates the pending challenge only
on success: a successful login completion clears the session challenge and a
subsequent attempt fails with the no-pending-challenge error, and a successful
registration completion clears it likewise; a failed attempt of either kind
leaves the session (and its challenge) unchanged, so the challenge may be
retried. -/
theorem challenge_cleared_only_on_success (m : Fido2Model) (db : DB) (sess : Session)
    (req : AssertionRequest) (am : AttestationModel) (rreq : AttestationRequest) :
    ((loginResponse m db sess req).1.isOk = true →
      (loginResponse m db sess req).2.2.challenge = none ∧
      (loginResponse m (loginResponse m db sess req).2.1 (loginResponse m db sess req).2.2 req).1
        = .err ("Authentication verification failed") ("No challenge found in session")) ∧
    ((loginResponse m db sess req).1.isOk = false →
      (loginResponse m db sess req).2.2 = sess) ∧
    ((registerResponse am db sess rreq).1.isOk = true →
      (registerResponse am db sess rreq).2.2.challenge = none) ∧
    ((registerResponse am db sess rreq).1.isOk = false →
      (registerResponse am db sess rreq).2.2 = sess) := by
  refine ⟨?_, ?_, ?_, ?_⟩
  · intro hok
    rcases loginResponse_spec m db sess req with ⟨msg, heq⟩ |
      ⟨user, credential, rest, h1, h2, hu, hc, hv, hcc, heq⟩
    · rw [heq] at hok; simp [LoginResult.isOk] at hok
    · rw [heq]
      refine ⟨rfl, ?_⟩
      rw [loginResponse_noChallenge m (updateCounterRow db credential.id (m.counterOf req.response))
        { sess with challenge := none, authenticated := true } req rfl]
  · intro herr
    rcases loginResponse_spec m db sess req with ⟨msg, heq⟩ |
      ⟨user, credential, rest, h1, h2, hu, hc, hv, hcc, heq⟩
    · rw [heq]
    · rw [heq] at herr; simp [LoginResult.isOk] at herr
  · intro hok
    rw [(registerResponse_sess am db sess rreq).1 hok]
  · exact (registerResponse_sess am db sess rreq).2

theorem challenge_cleared_only_on_success_witness :
    (loginResponse mAccept dbAlice sessAlice reqA).2.2.challenge = none :=
  ((challenge_cleared_only_on_success mAccept dbAlice sessAlice reqA amAccept attReq).1
    (by decide)).1

/-- C2 counterexample: with stored counter 0 and presented counter 0 (a
counter-less authenticator) authentication succeeds, yet the stored counter is
not advanced to a value greater than the stored one — it stays 0.  So a
successful authentication does not always present a counter greater than the
stored value. -/
theorem counter_not_strictly_advanced_cx :
    ((loginResponse mZero dbAlice sessAlice reqA).1 = .ok ("alice") ("Alice")) ∧
    ((loginResponse mZero dbAlice sessAlice reqA).2.1.creds.map Credential.counter = [0]) := by
  decide

/-- C2 amended: the stored signature counter is non-decreasing across the
authentication operation: a successful authentication stores the presented
value, which is strictly greater than the stored value unless both are zero
(counter-less authenticator, in which case it stays 0), and any rejected
attempt leaves the credential store unchanged. -/
theorem counter_monotonicity_amended (m : Fido2Model) (db : DB) (sess : Session)
    (req : AssertionRequest) (hids : (db.creds.map Credential.id).Nodup) :
    List.Forall₂ (fun a b => a.counter ≤ b.counter) db.creds
        (loginResponse m db sess req).2.1.creds ∧
    ((loginResponse m db sess req).1.isOk = false → (loginResponse m db sess req).2.1 = db) ∧
    ((loginResponse m db sess req).1.isOk = true →
      ∃ user credential rest,
        findUserByUsername db (sess.username.getD "") = some user ∧
        credentialsOf db user.id = credential :: rest ∧
        (credential.counter < m.counterOf req.response ∨
          (m.counterOf req.response = 0 ∧ credential.counter = 0)) ∧
        (loginResponse m db sess req).2.1 =
          updateCounterRow db credential.id (m.counterOf req.response)) := by
  rcases loginResponse_spec m db sess req with ⟨msg, heq⟩ |
    ⟨user, credential, rest, h1, h2, hu, hc, hv, hcc, heq⟩
  · rw [heq]
    refine ⟨List.forall₂_same.2 (fun x _ => le_refl _), fun _ => rfl, fun hok => ?_⟩
    simp [LoginResult.isOk] at hok
  · have hmem : credential ∈ db.creds := by
      have hm : credential ∈ credentialsOf db user.id := by
        rw [hc]; exact List.mem_cons_self _ _
      exact (List.mem_filter.1 hm).1
    have hdisj : credential.counter < m.counterOf req.response ∨
        (m.counterOf req.response = 0 ∧ credential.counter = 0) := by
      unfold counterCheckOk at hcc
      simp only [Bool.or_eq_true, Bool.and_eq_true, beq_iff_eq, decide_eq_true_eq] at hcc
      omega
    have hle : credential.counter ≤ m.counterOf req.response := by omega
    rw [heq]
    refine ⟨?_, fun habs => ?_, fun _ => ⟨user, credential, rest, hu, hc, hdisj, rfl⟩⟩
    · unfold updateCounterRow
      simp only [List.forall₂_map_right_iff]
      refine List.forall₂_same.2 (fun c hcmem => ?_)
      cases hid : c.id == credential.id
      · simp [hid]
      · have hceq : c = credential :=
          List.inj_on_of_nodup_map hids hcmem hmem (by simpa using hid)
        rw [hceq]
        simpa using hle
    · simp [LoginResult.isOk] at habs

theorem counter_monotonicity_amended_witness :
    List.Forall₂ (fun a b => a.counter ≤ b.counter) dbAlice.creds
      (loginResponse mAccept dbAlice sessAlice reqA).2.1.creds :=
  (counter_monotonicity_amended mAccept dbAlice sessAlice reqA (by decide)).1

/-- C3: the direct-registration path persists a credential whose public key is
the literal sentinel string and marks the session authenticated, with no
cryptographic attestation verification anywhere on the path (the handler never
reads an attestation object) — in both revisions of the endpoint.  Hence
registration does not have exactly one verified-attestation code path. -/
theorem register_direct_placeholder_bypass :
    ((registerDirect emptyDB emptySession ⟨some ("mallory"), none, some ("cred-1")⟩).1
        = .ok 1 ("mallory") ("mallory")) ∧
    ((registerDirect emptyDB emptySession ⟨some ("mallory"), none, some ("cred-1")⟩).2.1.creds.map
        Credential.publicKey = [("PLACEHOLDER_KEY")]) ∧
    ((registerDirect emptyDB emptySession
        ⟨some ("mallory"), none, some ("cred-1")⟩).2.2.authenticated = true) ∧
    ((registerDirectV2 emptyDB emptySession ⟨some ("mallory"), none, some ("cred-1")⟩).2.1.creds.map
        Credential.publicKey = [("PLACEHOLDER_KEY")]) ∧
    ((registerDirectV2 emptyDB emptySession
        ⟨some ("mallory"), none, some ("cred-1")⟩).2.2.authenticated = true) := by
  decide

/-- C4 counterexample: the store-challenge endpoint stores a client-supplied
value as the pending session challenge, and the second-revision
direct-registration endpoint binds the identity from the client body when the
session holds none. -/
theorem client_supplied_binding_cx :
    ((storeChallenge emptySession (some ("attacker-challenge"))).2.challenge
        = some ("attacker-challenge")) ∧
    ((registerDirectV2 emptyDB emptySession
        ⟨some ("mallory"), none, some ("cred-2")⟩).2.2.username = some ("mallory")) := by
  decide

/-- C4 amended: pending challenges and bound identities are not exclusively
server-held: the store-challenge endpoint sets the session challenge to any
non-empty client-supplied value, and the second-revision direct-registration
endpoint falls back to the client-supplied body username (binding and
authenticating that identity) whenever the session has no username. -/
theorem client_supplied_binding_amended :
    (∀ (sess : Session) (c : String), c ≠ "" →
        (storeChallenge sess (some c)).2.challenge = some c) ∧
    (∀ (db : DB) (sess : Session) (body : RegisterDirectRequest) (u rid : String),
        sess.username = none → body.username = some u → u ≠ "" → body.rawId = some rid →
        (registerDirectV2 db sess body).2.2.username = some u ∧
        (registerDirectV2 db sess body).2.2.authenticated = true) := by
  constructor
  · intro sess c hc
    unfold storeChallenge
    simp [truthy_some_of_ne c hc]
  · intro db sess body u rid hsu hbu hu hrid
    have hie : u.isEmpty = false :=
      Bool.eq_false_iff.2 fun habs => hu ((String.isEmpty_iff u).1 habs)
    unfold registerDirectV2
    simp [hsu, hbu, hrid, truthy, hie]

theorem client_supplied_binding_amended_witness :
    (storeChallenge emptySession (some ("xyz"))).2.challenge = some ("xyz") :=
  client_supplied_binding_amended.1 emptySession ("xyz") (by decide)

/-- C5 counterexample: with the session challenge bound to user B (bob) and an
assertion presenting a credential identifier owned by user A (alice), the
ceremony is not rejected with any credential-not-found outcome: the presented
identifier is never looked up, and when the signature verifies against B's
first stored credential the request authenticates successfully as B. -/
theorem cross_account_cx :
    (loginResponse mKeyB dbAB sessBob reqA).1 = .ok ("bob") ("Bob") := by
  decide

/-- C5 amended: the login verifier performs no lookup of the presented
credential identifier (the outcome depends only on the binary response
fields), and a successful authentication is always as the session-bound
identity; no credential-not-found rejection exists — a cross-account assertion
is accepted exactly when its signature verifies against the first credential
of the session-bound user. -/
theorem credential_lookup_ignores_presented_id :
    (∀ (m : Fido2Model) (db : DB) (sess : Session) (req req' : AssertionRequest),
        req.response = req'.response →
        loginResponse m db sess req = loginResponse m db sess req') ∧
    (∀ (m : Fido2Model) (db : DB) (sess : Session) (req : AssertionRequest) (un dn : String),
        (loginResponse m db sess req).1 = .ok un dn → sess.username = some un) := by
  constructor
  · exact loginResponse_depends_only_on_response
  · intro m db sess req un dn hok
    rcases loginResponse_spec m db sess req with ⟨msg, heq⟩ |
      ⟨user, credential, rest, h1, h2, hu, hc, hv, hcc, heq⟩
    · rw [heq] at hok; simp at hok
    · rw [heq] at hok
      have ha : user.username = un := by
        have := congrArg (fun r => match r with | LoginResult.ok a _ => a | _ => un) hok
        simpa using this
      have hp : user.username = sess.username.getD "" := by
        simpa [findUserByUsername] using List.find?_some hu
      cases hsu : sess.username with
      | none => rw [hsu] at h2; simp [truthy] at h2
      | some s =>
          rw [hsu] at hp
          simp only [Option.getD_some] at hp
          rw [← ha, hp]

theorem credential_lookup_ignores_presented_id_witness :
    loginResponse mAccept dbAlice sessAlice reqA = loginResponse mAccept dbAlice sessAlice reqOtherId :=
  credential_lookup_ignores_presented_id.1 mAccept dbAlice sessAlice reqA reqOtherId rfl

/-- C6 counterexample: two failing runs of the login verifier with different
internal causes produce different externally visible responses: the 500 body's
message field carries the internal error text, so a missing-challenge failure
and a missing-username failure are distinguishable. -/
theorem failure_leaks_cause_cx :
    ((loginResponse mReject dbAlice sessNoChal reqA).1
        = .err ("Authentication verification failed") ("No challenge found in session")) ∧
    ((loginResponse mReject dbAlice sessNoUser reqA).1
        = .err ("Authentication verification failed") ("No username found in session")) ∧
    ((loginResponse mReject dbAlice sessNoChal reqA).1
        ≠ (loginResponse mReject dbAlice sessNoUser reqA).1) := by
  decide

/-- C6 amended: every authentication failure shares the one constant top-level
error string of the 500 response, but the accompanying message field exposes
the internal cause, so failing runs are not externally identical. -/
theorem failure_error_field_constant (m : Fido2Model) (db : DB) (sess : Session)
    (req : AssertionRequest) (e msg : String)
    (h : (loginResponse m db sess req).1 = .err e msg) :
    e = "Authentication verification failed" := by
  rcases loginResponse_spec m db sess req with ⟨msg2, heq⟩ |
    ⟨user, credential, rest, h1, h2, hu, hc, hv, hcc, heq⟩
  · rw [heq] at h
    have := congrArg (fun r => match r with | LoginResult.err a _ => a | _ => e) h
    simpa using this.symm
  · rw [heq] at h; simp at h

theorem failure_error_field_constant_witness :
    ("Authentication verification failed" : String) = "Authentication verification failed" :=
  failure_error_field_constant mReject dbAlice sessNoChal reqA
    ("Authentication verification failed") ("No challenge found in session") (by decide)

/-- C9 counterexample: credential identifiers are not unique across users.
Starting from the empty store, two direct registrations presenting the same
credential identifier for different usernames reach a state with two
credential rows carrying the same identifier, owned by different users. -/
theorem credential_id_not_unique_cx :
    (((registerDirect
          (registerDirect emptyDB emptySession ⟨some ("alice"), none, some ("dupX")⟩).2.1
          emptySession ⟨some ("bob"), none, some ("dupX")⟩).2.1).creds.map
        Credential.credentialId = [("dupX"), ("dupX")]) ∧
    (((registerDirect
          (registerDirect emptyDB emptySession ⟨some ("alice"), none, some ("dupX")⟩).2.1
          emptySession ⟨some ("bob"), none, some ("dupX")⟩).2.1).creds.map
        Credential.userId = [1, 2]) ∧
    ¬ (((registerDirect
          (registerDirect emptyDB emptySession ⟨some ("alice"), none, some ("dupX")⟩).2.1
          emptySession ⟨some ("bob"), none, some ("dupX")⟩).2.1).creds.map
        Credential.credentialId).Nodup := by
  decide

/-- C9 amended: credential-identifier uniqueness is not enforced: the model
declares no unique constraint and the registration path performs no duplicate
check — a successful direct registration always appends a row with the
presented identifier, whatever identifiers already exist (so duplicates,
including cross-user duplicates, are reachable). -/
theorem register_direct_appends_unconditionally (db : DB) (sess : Session) (uname rid : String)
    (hu : uname ≠ "") (hr : rid ≠ "") :
    ((registerDirect db sess ⟨some uname, none, some rid⟩).2.1).creds.map Credential.credentialId
      = db.creds.map Credential.credentialId ++ [rid] := by
  unfold registerDirect
  have h1 : truthy (some uname) = true := truthy_some_of_ne uname hu
  have h2 : truthy (some rid) = true := truthy_some_of_ne rid hr
  cases hf : findUserByUsername db uname <;>
    simp [h1, h2, hf, createCredential, createUser]

theorem register_direct_appends_unconditionally_witness :
    ((registerDirect emptyDB emptySession ⟨some ("alice"), none, some ("X")⟩).2.1).creds.map
        Credential.credentialId
      = emptyDB.creds.map Credential.credentialId ++ [("X")] :=
  register_direct_appends_unconditionally emptyDB emptySession ("alice") ("X")
    (by decide) (by decide)

/-- C10: the login verifier selects the first stored credential of the
session-bound user and accepts exactly when the library verdict on that
credential's public key and the counter check against that credential's stored
counter both pass; the presented credential identifier plays no role (the
outcome depends only on the binary response fields), so for a user with
several credentials an assertion that does not verify against the first
stored credential's key is never accepted. -/
theorem first_credential_selected (m : Fido2Model) (db : DB) (sess : Session)
    (req : AssertionRequest) (user : User) (credential : Credential) (rest : List Credential)
    (hch : truthy sess.challenge = true) (hun : truthy sess.username = true)
    (hu : findUserByUsername db (sess.username.getD "") = some user)
    (hc : credentialsOf db user.id = credential :: rest) :
    ((loginResponse m db sess req).1.isOk = true ↔
      (m.verify credential.publicKey (sess.challenge.getD "") req.response = true ∧
        counterCheckOk (m.counterOf req.response) credential.counter = true)) ∧
    (m.verify credential.publicKey (sess.challenge.getD "") req.response = false →
      (loginResponse m db sess req).1
        = .err ("Authentication verification failed") ("assertion verification failed")) ∧
    (∀ req', req'.response = req.response →
      loginResponse m db sess req' = loginResponse m db sess req) := by
  refine ⟨?_, ?_, fun req' h => loginResponse_depends_only_on_response m db sess req' req h⟩
  · unfold loginResponse
    cases hv : m.verify credential.publicKey (sess.challenge.getD "") req.response <;>
      cases hcc : counterCheckOk (m.counterOf req.response) credential.counter <;>
        simp [hch, hun, hu, hc, hv, hcc, LoginResult.isOk]
  · intro hv
    unfold loginResponse
    simp [hch, hun, hu, hc, hv]

theorem first_credential_selected_witness :
    ((loginResponse mAccept dbAlice sessAlice reqA).1.isOk = true ↔
      (mAccept.verify aliceCred.publicKey (sessAlice.challenge.getD "") reqA.response = true ∧
        counterCheckOk (mAccept.counterOf reqA.response) aliceCred.counter = true)) :=
  (first_credential_selected mAccept dbAlice sessAlice reqA aliceUser aliceCred []
    (by decide) (by decide) (by decide) (by decide)).1

end RenStack
